import Mathlib

/-!
Verification of the feature-branch checker (`check_feature_branch.py`)
against its natural-language specification.

The script is a thin orchestration layer over the `git` command line:
`run_git_command` executes one subcommand and reports success plus captured
output; derived queries (`is_git_repository`, `get_current_branch`,
`get_all_branches`, `has_uncommitted_changes`) read repository state, and
`check_feature_branch` / `create_or_switch_branch` implement the decision
policy and its execution.

The embedding is shallow: the operating-system side of one subprocess call
is abstracted as a `SubprocessOutcome` (normal completion with an exit code
and output streams, a timeout, or a launch failure), and a whole repository
environment is a function `GitEnv` from the argument vector to that outcome.
Every Python function of the script becomes a pure Lean function over this
environment, translated line by line.  Python string primitives
(`strip`, `split`, `replace`, `startswith`, `in`) are modelled by
structurally recursive functions over `List Char` so that all definitions
evaluate inside the kernel.
-/

namespace FeatureBranch

/-! ## Python string primitives -/

/-- Characters removed by Python `str.strip()` (ASCII whitespace as it occurs
in `git` output: space, tab, carriage return, newline). -/
def pyIsSpace (c : Char) : Bool :=
  c = ' ' || c = '\t' || c = '\r' || c = '\n'

/-- `str.strip()` on the character list: drop whitespace from both ends. -/
def stripChars (l : List Char) : List Char :=
  ((l.dropWhile pyIsSpace).reverse.dropWhile pyIsSpace).reverse

/-- Python `str.strip()`. -/
def pyStrip (s : String) : String :=
  ⟨stripChars s.data⟩

/-- `str.split(sep)` for a one-character separator, on character lists:
`splitOnChar c l` never returns `[]`, mirroring Python where `"".split(c)`
is `[""]`. -/
def splitOnChar (c : Char) : List Char → List (List Char)
  | [] => [[]]
  | x :: xs =>
    match splitOnChar c xs with
    | [] => [[]]
    | h :: t => if x = c then [] :: h :: t else (x :: h) :: t

/-- Python `s.split('\n')`. -/
def pySplitNewline (s : String) : List String :=
  (splitOnChar '\n' s.data).map (fun l => ⟨l⟩)

/-- Python `str.startswith(pat)`. -/
def pyStartswith (s pat : String) : Bool :=
  pat.data.isPrefixOf s.data

/-- Replace every non-overlapping occurrence of `pat` (non-empty in all uses)
by `rep`, scanning left to right; `fuel` bounds the recursion and is passed
the length of the subject, which each step strictly consumes. -/
def replaceChars : Nat → List Char → List Char → List Char → List Char
  | _, _, _, [] => []
  | 0, _, _, l => l
  | fuel + 1, pat, rep, c :: cs =>
    if pat.isPrefixOf (c :: cs) then
      rep ++ replaceChars fuel pat rep ((c :: cs).drop pat.length)
    else
      c :: replaceChars fuel pat rep cs

/-- Python `str.replace(pat, rep)` (all occurrences). -/
def pyReplace (s pat rep : String) : String :=
  ⟨replaceChars s.data.length pat.data rep.data s.data⟩

/-! ## The Command Runner (`run_git_command`) -/

/-- What the operating system reports for one `subprocess.run` call: normal
completion with an exit code and captured streams, expiry of the fixed
wall-clock bound (`subprocess.TimeoutExpired`), or any failure to launch the
subprocess (missing binary, permission error, ...), carried as the text of
the raised exception. -/
inductive SubprocessOutcome where
  | completed (returncode : Int) (stdout stderr : String)
  | timedOut
  | launchFailure (message : String)

/-- The triple `run_git_command` returns: success flag, stripped stdout,
stripped stderr. -/
structure RunResult where
  success : Bool
  stdout : String
  stderr : String
  deriving Repr, DecidableEq

/-- The fixed wall-clock bound (`timeout=30`) passed to `subprocess.run`. -/
def gitCommandTimeout : Nat := 30

/-- `run_git_command`, line by line: on completion, success iff the exit code
is zero, with both streams stripped; on timeout, failure with stderr
`"Command timed out"`; on a launch failure, failure with stderr the
exception's text.  The Python `try`/`except` swallows every exception, which
the embedding renders as totality: every outcome yields a result. -/
def run_git_command : SubprocessOutcome → RunResult
  | .completed returncode stdout stderr =>
      ⟨returncode = 0, pyStrip stdout, pyStrip stderr⟩
  | .timedOut => ⟨false, "", "Command timed out"⟩
  | .launchFailure message => ⟨false, "", message⟩

/-- A repository environment: what the operating system would report for each
argument vector handed to `subprocess.run`.  The script under test is a pure
function of this environment. -/
def GitEnv : Type := List String → SubprocessOutcome

/-- Running one command against an environment. -/
def runCmd (env : GitEnv) (argv : List String) : RunResult :=
  run_git_command (env argv)

/-- `["git", "rev-parse", "--git-dir"]`, the repository probe. -/
def revParseArgv : List String := ["git", "rev-parse", "--git-dir"]

/-- `["git", "branch", "--show-current"]`, the current-branch query. -/
def showCurrentArgv : List String := ["git", "branch", "--show-current"]

/-- `["git", "branch", "-a"]`, the all-branches listing. -/
def branchAArgv : List String := ["git", "branch", "-a"]

/-- `["git", "status", "--porcelain"]`, the dirty-state probe. -/
def statusArgv : List String := ["git", "status", "--porcelain"]

/-! ## Derived queries -/

/-- `is_git_repository`: success of the repository probe. -/
def is_git_repository (env : GitEnv) : Bool :=
  (runCmd env revParseArgv).success

/-- `get_current_branch`: `output if success else None`.  Note the code
returns the (already stripped) output even when it is empty. -/
def get_current_branch (env : GitEnv) : Option String :=
  let r := runCmd env showCurrentArgv
  if r.success then some r.stdout else none

/-- `get_all_branches`: on failure return `[]`; otherwise split the output on
newlines, strip each line, and for each non-empty line that does not start
with `*`, remove `remotes/origin/` and then `remotes/` when the line starts
with `remotes/`, appending to the list. -/
def get_all_branches (env : GitEnv) : List String :=
  let r := runCmd env branchAArgv
  if !r.success then []
  else
    (pySplitNewline r.stdout).foldl
      (fun branches rawLine =>
        let line := pyStrip rawLine
        if line ≠ "" ∧ ¬ (pyStartswith line "*" = true) then
          let branch_name :=
            if pyStartswith line "remotes/" = true then
              pyReplace (pyReplace line "remotes/origin/" "") "remotes/" ""
            else line
          branches ++ [branch_name]
        else branches)
      []

/-- `has_uncommitted_changes`: success of the porcelain status query and a
non-empty (re-stripped) output. -/
def has_uncommitted_changes (env : GitEnv) : Bool :=
  let r := runCmd env statusArgv
  r.success && pyStrip r.stdout ≠ ""

/-! ## The decision (`check_feature_branch`) -/

/-- The result record `check_feature_branch` builds (`branch_name`,
`can_proceed`, `action`, `error`, `warnings`). -/
structure CheckResult where
  branch_name : String
  can_proceed : Bool
  action : String
  error : Option String
  warnings : List String
  deriving Repr, DecidableEq

/-- `check_feature_branch`, mirroring the Python control flow: start from the
default record, then return at the first matching check. -/
def check_feature_branch (env : GitEnv) (branch_name : String) : CheckResult :=
  let result : CheckResult :=
    { branch_name := branch_name
      can_proceed := false
      action := "unknown"
      error := none
      warnings := [] }
  if is_git_repository env = false then
    { result with error := some "Not a Git repository" }
  else if has_uncommitted_changes env = true then
    { result with
        error := some "Cannot change branch: uncommitted changes detected"
        warnings := ["Commit or stash your changes before switching branches"] }
  else if get_current_branch env = some branch_name then
    { result with
        can_proceed := true
        action := "already_on_branch"
        warnings := ["Already on branch '" ++ branch_name ++ "'"] }
  else if branch_name ∈ get_all_branches env then
    { result with
        can_proceed := true
        action := "switch"
        warnings := ["Branch '" ++ branch_name ++ "' exists, will switch to it"] }
  else
    { result with
        can_proceed := true
        action := "create"
        warnings := ["Branch '" ++ branch_name ++ "' does not exist, will create it"] }

/-- The sequence of `run_git_command` invocations `check_feature_branch`
performs, read off its control flow: the repository probe always runs; the
status query runs only inside a repository; the current-branch query only on
a clean tree; the branch listing only when the target is not the current
branch. -/
def check_feature_branch_calls (env : GitEnv) (branch_name : String) :
    List (List String) :=
  if is_git_repository env = false then [revParseArgv]
  else if has_uncommitted_changes env = true then [revParseArgv, statusArgv]
  else if get_current_branch env = some branch_name then
    [revParseArgv, statusArgv, showCurrentArgv]
  else [revParseArgv, statusArgv, showCurrentArgv, branchAArgv]

/-! ## Execution (`create_or_switch_branch`) -/

/-- `create_or_switch_branch`: re-derive the check, fail with its error when
it cannot proceed, otherwise no-op, plain checkout, or create-and-checkout
according to the action.  The message channel is `Option String` because the
blocked path returns the record's `error` field verbatim. -/
def create_or_switch_branch (env : GitEnv) (branch_name : String) :
    Bool × Option String :=
  let check_result := check_feature_branch env branch_name
  if check_result.can_proceed = false then
    (false, check_result.error)
  else if check_result.action = "already_on_branch" then
    (true, some ("Already on branch '" ++ branch_name ++ "'"))
  else if check_result.action = "switch" then
    let r := runCmd env ["git", "checkout", branch_name]
    if r.success then (true, some ("Switched to branch '" ++ branch_name ++ "'"))
    else (false, some ("Failed to switch to branch '" ++ branch_name ++ "': " ++ r.stderr))
  else if check_result.action = "create" then
    let r := runCmd env ["git", "checkout", "-b", branch_name]
    if r.success then
      (true, some ("Created and switched to branch '" ++ branch_name ++ "'"))
    else
      (false, some ("Failed to create branch '" ++ branch_name ++ "': " ++ r.stderr))
  else (false, some "Unknown action")

/-- The `run_git_command` invocations `create_or_switch_branch` performs:
those of the embedded `check_feature_branch`, followed by the mutating
checkout, if any. -/
def create_or_switch_branch_calls (env : GitEnv) (branch_name : String) :
    List (List String) :=
  let check_result := check_feature_branch env branch_name
  check_feature_branch_calls env branch_name ++
    (if check_result.can_proceed = false then []
     else if check_result.action = "already_on_branch" then []
     else if check_result.action = "switch" then [["git", "checkout", branch_name]]
     else if check_result.action = "create" then
       [["git", "checkout", "-b", branch_name]]
     else [])

/-! ## The specification's view of a Decision

The spec (§3, §9) presents the result as a `Decision` with a closed action
enum in which `blocked` is an action value, where the code leaves `action`
at `"unknown"` and sets `error`; and it names the two blocking errors with
the abstract labels `"not a repository"` and `"uncommitted changes present"`
in place of the code's literal messages.  The next two definitions follow
the spec's words and render the code-level record in that vocabulary. -/

/-- The spec's action enum (§3). -/
inductive SpecAction where
  | alreadyOnBranch
  | switch
  | create
  | blocked
  deriving Repr, DecidableEq

/-- The spec-side action of a code-level result: an outcome that cannot
proceed is the `blocked` action; otherwise the action string names the
enum value. -/
def specActionOf (r : CheckResult) : SpecAction :=
  if r.can_proceed = false then SpecAction.blocked
  else if r.action = "already_on_branch" then SpecAction.alreadyOnBranch
  else if r.action = "switch" then SpecAction.switch
  else SpecAction.create

/-- The spec-side rendering of the code's error strings: the two blocking
messages appear in the spec as its abstract labels (§4.1); any other value
passes through. -/
def specErrorOf : Option String → Option String
  | some "Not a Git repository" => some "not a repository"
  | some "Cannot change branch: uncommitted changes detected" =>
      some "uncommitted changes present"
  | e => e

/-! ## Concrete environments used as witnesses and counterexamples -/

/-- A successful completion printing `s`. -/
def outOk (s : String) : SubprocessOutcome :=
  SubprocessOutcome.completed 0 s ""

/-- A clean repository on branch `main`, with `develop` the only other
listed branch. -/
def envClean : GitEnv := fun argv =>
  if argv = showCurrentArgv then outOk "main"
  else if argv = branchAArgv then outOk "* main\n  develop"
  else outOk ""

/-- A repository whose porcelain status reports a modified file. -/
def envDirty : GitEnv := fun argv =>
  if argv = statusArgv then outOk " M file.txt"
  else if argv = showCurrentArgv then outOk "main"
  else if argv = branchAArgv then outOk "* main"
  else outOk ""

/-- A directory that is not a repository: the probe fails, everything else
would succeed. -/
def envNoRepo : GitEnv := fun argv =>
  if argv = revParseArgv then
    SubprocessOutcome.completed 128 "" "fatal: not a git repository"
  else outOk ""

/-- A repository in detached state: every query succeeds and prints
nothing. -/
def envDetached : GitEnv := fun _ => outOk ""

/-- A clean repository whose branch-listing output is the spec's §8
scenario: current branch line, a local branch, and two remote entries. -/
def envBranches : GitEnv := fun argv =>
  if argv = branchAArgv then
    outOk "* main\n  develop\n  remotes/origin/develop\n  remotes/origin/release"
  else if argv = showCurrentArgv then outOk "main"
  else outOk ""

/-- A clean repository on `main` whose branch-listing command fails. -/
def envListFails : GitEnv := fun argv =>
  if argv = branchAArgv then
    SubprocessOutcome.completed 1 "" "fatal: unable to list branches"
  else if argv = showCurrentArgv then outOk "main"
  else outOk ""

/-- A repository whose porcelain status query fails while printing output
on stdout. -/
def envStatusFails : GitEnv := fun argv =>
  if argv = statusArgv then
    SubprocessOutcome.completed 129 "M file.txt" "fatal: unknown option"
  else if argv = showCurrentArgv then outOk "main"
  else if argv = branchAArgv then outOk "* main"
  else outOk ""

/-! ## Helper lemmas -/

/-- A result renders as the spec's `blocked` action exactly when it cannot
proceed. -/
lemma specActionOf_eq_blocked_iff (r : CheckResult) :
    specActionOf r = SpecAction.blocked ↔ r.can_proceed = false := by
  unfold specActionOf
  split_ifs with h1 h2 h3 <;> simp_all

/-! ## Claims -/

/-- C1: for every repository state with `isRepository` true and `isDirty`
false, `evaluate` (`check_feature_branch`) returns, in this order of checks:
`alreadyOnBranch` with `canProceed` true when the current branch equals the
target; else `switch` when the target is among the known branches; else
`create`; each with its corresponding warning appended. -/
theorem evaluate_clean_repo_cases (env : GitEnv) (b : String)
    (hrepo : is_git_repository env = true)
    (hclean : has_uncommitted_changes env = false) :
    (get_current_branch env = some b →
      check_feature_branch env b =
        ⟨b, true, "already_on_branch", none,
          ["Already on branch '" ++ b ++ "'"]⟩ ∧
      specActionOf (check_feature_branch env b) = SpecAction.alreadyOnBranch) ∧
    (get_current_branch env ≠ some b → b ∈ get_all_branches env →
      check_feature_branch env b =
        ⟨b, true, "switch", none,
          ["Branch '" ++ b ++ "' exists, will switch to it"]⟩ ∧
      specActionOf (check_feature_branch env b) = SpecAction.switch) ∧
    (get_current_branch env ≠ some b → b ∉ get_all_branches env →
      check_feature_branch env b =
        ⟨b, true, "create", none,
          ["Branch '" ++ b ++ "' does not exist, will create it"]⟩ ∧
      specActionOf (check_feature_branch env b) = SpecAction.create) := by
  refine ⟨fun hc => ?_, fun hc hm => ?_, fun hc hm => ?_⟩
  · have hrec : check_feature_branch env b =
        ⟨b, true, "already_on_branch", none,
          ["Already on branch '" ++ b ++ "'"]⟩ := by
      unfold check_feature_branch
      simp [hrepo, hclean, hc]
    exact ⟨hrec, by rw [hrec]; rfl⟩
  · have hrec : check_feature_branch env b =
        ⟨b, true, "switch", none,
          ["Branch '" ++ b ++ "' exists, will switch to it"]⟩ := by
      unfold check_feature_branch
      simp [hrepo, hclean, hc, hm]
    exact ⟨hrec, by rw [hrec]; rfl⟩
  · have hrec : check_feature_branch env b =
        ⟨b, true, "create", none,
          ["Branch '" ++ b ++ "' does not exist, will create it"]⟩ := by
      unfold check_feature_branch
      simp [hrepo, hclean, hc, hm]
    exact ⟨hrec, by rw [hrec]; rfl⟩

/-- Witness for C1 at the concrete clean environment, target `develop`:
the hypotheses hold and the decision is `switch`. -/
theorem evaluate_clean_repo_cases_witness :
    is_git_repository envClean = true ∧
    has_uncommitted_changes envClean = false ∧
    get_current_branch envClean ≠ some "develop" ∧
    "develop" ∈ get_all_branches envClean ∧
    check_feature_branch envClean "develop" =
      ⟨"develop", true, "switch", none,
        ["Branch 'develop' exists, will switch to it"]⟩ :=
  ⟨by decide, by decide, by decide, by decide,
    (((evaluate_clean_repo_cases envClean "develop" (by decide)
      (by decide)).2.1) (by decide) (by decide)).1⟩

/-- C2: for every repository state with `isRepository` true and `isDirty`
true, and every branch name, `evaluate` blocks with `canProceed` false, a
non-empty error (rendered by the spec as "uncommitted changes present") and
the commit-or-stash warning. -/
theorem evaluate_dirty_blocked (env : GitEnv) (b : String)
    (hrepo : is_git_repository env = true)
    (hdirty : has_uncommitted_changes env = true) :
    check_feature_branch env b =
      ⟨b, false, "unknown",
        some "Cannot change branch: uncommitted changes detected",
        ["Commit or stash your changes before switching branches"]⟩ ∧
    specActionOf (check_feature_branch env b) = SpecAction.blocked ∧
    specErrorOf (check_feature_branch env b).error =
      some "uncommitted changes present" ∧
    (check_feature_branch env b).error ≠ none ∧
    (check_feature_branch env b).error ≠ some "" := by
  have hrec : check_feature_branch env b =
      ⟨b, false, "unknown",
        some "Cannot change branch: uncommitted changes detected",
        ["Commit or stash your changes before switching branches"]⟩ := by
    unfold check_feature_branch
    simp [hrepo, hdirty]
  exact ⟨hrec, by rw [hrec]; rfl, by rw [hrec]; rfl, by rw [hrec]; simp,
    by rw [hrec]; simp⟩

/-- Witness for C2 at the dirty environment. -/
theorem evaluate_dirty_blocked_witness :
    is_git_repository envDirty = true ∧
    has_uncommitted_changes envDirty = true ∧
    specActionOf (check_feature_branch envDirty "main") = SpecAction.blocked :=
  ⟨by decide, by decide,
    (evaluate_dirty_blocked envDirty "main" (by decide) (by decide)).2.1⟩

/-- C3: for every state with `isRepository` false and every branch name,
`evaluate` blocks with the error the spec renders as "not a repository",
and the Command Runner is invoked exactly once, on the repository probe,
before the short-circuit. -/
theorem evaluate_not_repo (env : GitEnv) (b : String)
    (hrepo : is_git_repository env = false) :
    check_feature_branch env b =
      ⟨b, false, "unknown", some "Not a Git repository", []⟩ ∧
    specActionOf (check_feature_branch env b) = SpecAction.blocked ∧
    specErrorOf (check_feature_branch env b).error = some "not a repository" ∧
    check_feature_branch_calls env b = [revParseArgv] ∧
    (check_feature_branch_calls env b).length ≤ 1 := by
  have hrec : check_feature_branch env b =
      ⟨b, false, "unknown", some "Not a Git repository", []⟩ := by
    unfold check_feature_branch
    simp [hrepo]
  have hcalls : check_feature_branch_calls env b = [revParseArgv] := by
    unfold check_feature_branch_calls
    simp [hrepo]
  exact ⟨hrec, by rw [hrec]; rfl, by rw [hrec]; rfl, hcalls,
    by rw [hcalls]; decide⟩

/-- Witness for C3 at the failing-probe environment. -/
theorem evaluate_not_repo_witness :
    is_git_repository envNoRepo = false ∧
    check_feature_branch_calls envNoRepo "x" = [revParseArgv] :=
  ⟨by decide, (evaluate_not_repo envNoRepo "x" (by decide)).2.2.2.1⟩

/-- Counterexample to C4: on the runner output
`["* main", "  develop", "  remotes/origin/develop", "  remotes/origin/release"]`
the parser does not strip the leading `*` marker — it skips that line
entirely — so `main` is absent from the parsed branches, contradicting
`knownBranches = {main, develop, release}`. -/
theorem allBranches_star_line_skipped :
    (runCmd envBranches branchAArgv).stdout =
      "* main\n  develop\n  remotes/origin/develop\n  remotes/origin/release" ∧
    get_all_branches envBranches = ["develop", "develop", "release"] ∧
    "main" ∉ get_all_branches envBranches := by decide

/-- C4 as amended: lines whose stripped form begins with `*` (the current
local branch) are skipped entirely rather than stripped of the marker; other
lines are stripped of whitespace, and remote entries lose their
`remotes/origin/` then `remotes/` prefixes; duplicates collapse under set
membership, so the parsed known branches of the scenario are exactly
{develop, release}. -/
theorem allBranches_scenario (s : String) :
    get_all_branches envBranches = ["develop", "develop", "release"] ∧
    (s ∈ get_all_branches envBranches ↔ s = "develop" ∨ s = "release") := by
  have h : get_all_branches envBranches = ["develop", "develop", "release"] := by
    decide
  refine ⟨h, ?_⟩
  rw [h]
  simp only [List.mem_cons, List.not_mem_nil, or_false]
  tauto

/-- C5: whenever the decision is `blocked`, `create_or_switch_branch` fails
carrying the decision's error string, performs no runner invocation beyond
those of the evaluation it embeds, and in particular never issues either
mutating checkout command. -/
theorem execute_blocked_no_checkout (env : GitEnv) (b : String)
    (hblocked : specActionOf (check_feature_branch env b) = SpecAction.blocked) :
    create_or_switch_branch env b = (false, (check_feature_branch env b).error) ∧
    create_or_switch_branch_calls env b = check_feature_branch_calls env b ∧
    ["git", "checkout", b] ∉ create_or_switch_branch_calls env b ∧
    ["git", "checkout", "-b", b] ∉ create_or_switch_branch_calls env b := by
  have hcp : (check_feature_branch env b).can_proceed = false :=
    (specActionOf_eq_blocked_iff _).mp hblocked
  have h1 : create_or_switch_branch env b =
      (false, (check_feature_branch env b).error) := by
    unfold create_or_switch_branch
    simp [hcp]
  have h2 : create_or_switch_branch_calls env b =
      check_feature_branch_calls env b := by
    unfold create_or_switch_branch_calls
    simp [hcp]
  have h3 : ∀ l : List String, l ∈ check_feature_branch_calls env b →
      l = revParseArgv ∨ l = statusArgv ∨ l = showCurrentArgv ∨
        l = branchAArgv := by
    intro l hl
    unfold check_feature_branch_calls at hl
    split_ifs at hl <;> simp_all <;> tauto
  refine ⟨h1, h2, ?_, ?_⟩ <;>
    · rw [h2]
      intro hmem
      rcases h3 _ hmem with h | h | h | h <;>
        simp [revParseArgv, statusArgv, showCurrentArgv, branchAArgv] at h


/-- Witness for C5 at the non-repository environment: the decision is
blocked and execution fails without the mutating checkout. -/
theorem execute_blocked_no_checkout_witness :
    specActionOf (check_feature_branch envNoRepo "x") = SpecAction.blocked ∧
    create_or_switch_branch envNoRepo "x" =
      (false, (check_feature_branch envNoRepo "x").error) :=
  ⟨by decide, (execute_blocked_no_checkout envNoRepo "x" (by decide)).1⟩

/-- C6: `run_git_command` turns expiry of the fixed 30-time-unit bound into
a failure result with stderr the timeout indicator, and any launch failure
into a failure result with stderr the underlying error description; being a
total function of the outcome, it raises no fatal fault in either case. -/
theorem run_failure_modes :
    run_git_command SubprocessOutcome.timedOut =
      ⟨false, "", "Command timed out"⟩ ∧
    "Command timed out" ≠ "" ∧
    (∀ message : String,
      run_git_command (SubprocessOutcome.launchFailure message) =
        ⟨false, "", message⟩) ∧
    gitCommandTimeout = 30 :=
  ⟨rfl, by decide, fun _ => rfl, rfl⟩

/-- Counterexample to C7: in the detached environment the current-branch
query succeeds with empty (trimmed) output, yet `get_current_branch`
returns the present empty string, not the absent optional the claim
requires. -/
theorem currentBranch_detached_not_absent :
    (runCmd envDetached showCurrentArgv).success = true ∧
    (runCmd envDetached showCurrentArgv).stdout = "" ∧
    get_current_branch envDetached = some "" ∧
    get_current_branch envDetached ≠ none := by decide

/-- C7 as amended: a successful current-branch query surfaces its trimmed
output as a present value — the empty string included, for detached state —
and the absent optional occurs exactly when the query fails. -/
theorem currentBranch_present_iff_success (env : GitEnv) :
    ((runCmd env showCurrentArgv).success = true →
      get_current_branch env = some (runCmd env showCurrentArgv).stdout) ∧
    ((runCmd env showCurrentArgv).success = false →
      get_current_branch env = none) := by
  unfold get_current_branch
  constructor <;> intro h <;> simp [h]

/-- Witness for C7's amended theorem at the detached environment. -/
theorem currentBranch_present_iff_success_witness :
    (runCmd envDetached showCurrentArgv).success = true ∧
    get_current_branch envDetached =
      some ((runCmd envDetached showCurrentArgv).stdout) :=
  ⟨by decide, (currentBranch_present_iff_success envDetached).1 (by decide)⟩

/-- C8: every decision satisfies the invariant that `canProceed` holds
exactly when `error` is absent, and a decision that cannot proceed never
carries the `switch`, `create` or `already_on_branch` action — it renders
as the spec's `blocked`. -/
theorem decision_invariant (env : GitEnv) (b : String) :
    ((check_feature_branch env b).can_proceed = true ↔
      (check_feature_branch env b).error = none) ∧
    ((check_feature_branch env b).can_proceed = false →
      (check_feature_branch env b).action ≠ "switch" ∧
      (check_feature_branch env b).action ≠ "create" ∧
      (check_feature_branch env b).action ≠ "already_on_branch" ∧
      specActionOf (check_feature_branch env b) = SpecAction.blocked) := by
  unfold check_feature_branch
  split_ifs <;> simp [specActionOf]

/-- Witness for C8 at the non-repository environment. -/
theorem decision_invariant_witness :
    (check_feature_branch envNoRepo "x").can_proceed = false ∧
    (check_feature_branch envNoRepo "x").action ≠ "switch" :=
  ⟨by decide, ((decision_invariant envNoRepo "x").2 (by decide)).1⟩

/-- C9: when the porcelain status query fails, `has_uncommitted_changes` is
false whatever output was captured, so inside a repository the evaluation is
never blocked by the dirty check — the probe fails open. -/
theorem dirty_probe_fails_open (env : GitEnv) (b : String)
    (hfail : (runCmd env statusArgv).success = false) :
    has_uncommitted_changes env = false ∧
    (is_git_repository env = true →
      (check_feature_branch env b).can_proceed = true ∧
      (check_feature_branch env b).error = none) := by
  have hdirty : has_uncommitted_changes env = false := by
    unfold has_uncommitted_changes
    simp [hfail]
  refine ⟨hdirty, fun hrepo => ?_⟩
  unfold check_feature_branch
  simp [hrepo, hdirty]
  split_ifs <;> simp

/-- Witness for C9 at the environment whose status query fails while
printing output. -/
theorem dirty_probe_fails_open_witness :
    (runCmd envStatusFails statusArgv).success = false ∧
    (runCmd envStatusFails statusArgv).stdout ≠ "" ∧
    has_uncommitted_changes envStatusFails = false :=
  ⟨by decide, by decide,
    (dirty_probe_fails_open envStatusFails "main" (by decide)).1⟩

/-- C10: when the branch-listing command fails inside a clean repository,
`get_all_branches` is empty, so every target other than the current branch
is classified `create` — an existing branch can be misreported as needing
creation. -/
theorem listing_failure_forces_create (env : GitEnv) (b : String)
    (hrepo : is_git_repository env = true)
    (hclean : has_uncommitted_changes env = false)
    (hfail : (runCmd env branchAArgv).success = false) :
    get_all_branches env = [] ∧
    (get_current_branch env ≠ some b →
      (check_feature_branch env b).action = "create" ∧
      (check_feature_branch env b).can_proceed = true ∧
      specActionOf (check_feature_branch env b) = SpecAction.create) := by
  have hempty : get_all_branches env = [] := by
    unfold get_all_branches
    simp [hfail]
  refine ⟨hempty, fun hc => ?_⟩
  have hrec : check_feature_branch env b =
      ⟨b, true, "create", none,
        ["Branch '" ++ b ++ "' does not exist, will create it"]⟩ := by
    unfold check_feature_branch
    simp [hrepo, hclean, hc, hempty]
  exact ⟨by rw [hrec], by rw [hrec], by rw [hrec]; rfl⟩

/-- Witness for C10 at the environment whose branch listing fails. -/
theorem listing_failure_forces_create_witness :
    is_git_repository envListFails = true ∧
    has_uncommitted_changes envListFails = false ∧
    (runCmd envListFails branchAArgv).success = false ∧
    get_current_branch envListFails ≠ some "develop" ∧
    (check_feature_branch envListFails "develop").action = "create" :=
  ⟨by decide, by decide, by decide, by decide,
    ((listing_failure_forces_create envListFails "develop" (by decide)
      (by decide) (by decide)).2 (by decide)).1⟩

end FeatureBranch
